import Mathlib

/-!
# RecyConnect backend — verification of the registration/OTP/KYC pipeline

Shallow embedding of the relevant source files:

* `src/services/ocrService.js` — `extractTextFromUrl`, `extractCNIC`,
  `extractNTN`, plus the format validators from the KYC controller;
* `src/services/otpService.js` (src/unnamed/part_007, second variant) —
  `verifyOtp` over a persisted OTP table;
* the auth controller (src/unnamed/part_004) — `verifyOtpController`;
* the profile controller (src/unnamed/part_004) — `isValidTransition`,
  `requestRoleUpgrade`;
* the KYC controller (src/unnamed/part_004) — `isCnicUnique`,
  `validateCnicFormat`, `validateNtnFormat`, `registerKyc`.

Modelling conventions:

* The Prisma tables (`user`, `otp`, `ocrData`, `activityLog`) become lists
  inside a `DB` record; every controller is a pure state transition
  `DB → Resp × DB`.
* Timestamps are `Nat`; `new Date() > record.expiresAt` becomes
  `now > r.expiresAt`.
* bcrypt hashing is modelled as the identity: the stored `otpHash` field
  holds the plaintext code and `bcrypt.compare(code, hash)` becomes string
  equality (bcrypt's contract, ignoring hash collisions).
* JavaScript string truthiness (`if (!s)`) becomes an emptiness test on an
  `Option String` (`none` = absent/null, `some ""` = empty string).
* The two OCR network backends are modelled as `Except` values passed in as
  parameters; the OCR result of an uploaded document is modelled as a
  function `ocr : String → String` from file URL to extracted text.
* File uploads to Cloudinary are elided: controllers receive the OCR text
  of each uploaded file directly and presence flags for required files.
-/

namespace RecyConnect

/-! ## Enumerations (src/constants/enums.js) — plain strings as in the JS -/

def UserRole.INDIVIDUAL : String := "individual"

def UserRole.WAREHOUSE : String := "warehouse"

def UserRole.COMPANY : String := "company"

def VerificationStatus.PENDING : String := "PENDING"

def VerificationStatus.VERIFIED : String := "VERIFIED"

def VerificationStatus.REJECTED : String := "REJECTED"

def KycStage.DOCUMENTS_UPLOADED : String := "DOCUMENTS_UPLOADED"

def KycStage.VERIFIED : String := "VERIFIED"

/-- JavaScript truthiness of an optional string: `null`/`undefined` and the
empty string are falsy. -/
def jsTruthy : Option String → Bool
  | none => false
  | some s => s ≠ ""

/-! ## Regex engine for the CNIC/NTN patterns (src/services/ocrService.js)

The three CNIC patterns and the NTN pattern only use `\b`, `\d{n}`, `-?`
and `\s*`.  Because the character classes involved (digits, the hyphen,
whitespace) are pairwise disjoint, greedy matching without backtracking
coincides with JavaScript's backtracking semantics for these patterns, so
the matcher below consumes greedily.  `String.match` without the `g` flag
returns the leftmost match, which `regexSearch` reproduces by trying every
start position left to right. -/

/-- One regex token of the patterns used in `ocrService.js`. -/
inductive RTok where
  | wb
  | digits (n : Nat)
  | optHyphen
  | spaces
deriving DecidableEq

/-- JavaScript `\w` (ASCII word character). -/
def isWordChar (c : Char) : Bool := c.isAlphanum || c == '_'

/-- JavaScript `\s` restricted to the ASCII whitespace actually relevant to
OCR text. -/
def isSpaceChar (c : Char) : Bool := c == ' ' || c == '\t' || c == '\n' || c == '\r'

def wordOpt : Option Char → Bool
  | none => false
  | some c => isWordChar c

/-- Greedily consume `\s*`; returns the consumed prefix, the new previous
character and the rest. -/
def consumeSpaces : Option Char → List Char → List Char × Option Char × List Char
  | prev, [] => ([], prev, [])
  | prev, c :: rest =>
    if isSpaceChar c then
      let (cs, p, r) := consumeSpaces (some c) rest
      (c :: cs, p, r)
    else ([], prev, c :: rest)

/-- Match a token list at the current position; `prev` is the character just
before the position (for `\b`).  Returns the matched substring. -/
def matchToks : List RTok → Option Char → List Char → Option (List Char)
  | [], _, _ => some []
  | .wb :: ts, prev, s =>
    if wordOpt prev != wordOpt s.head? then matchToks ts prev s else none
  | .digits n :: ts, prev, s =>
    let taken := s.take n
    if taken.length == n && taken.all Char.isDigit then
      match matchToks ts (match taken.getLast? with | some c => some c | none => prev) (s.drop n) with
      | some cs => some (taken ++ cs)
      | none => none
    else none
  | .optHyphen :: ts, prev, s =>
    match s with
    | '-' :: rest =>
      (match matchToks ts (some '-') rest with
       | some cs => some ('-' :: cs)
       | none => matchToks ts prev s)
    | _ => matchToks ts prev s
  | .spaces :: ts, prev, s =>
    let (cs, p, r) := consumeSpaces prev s
    match matchToks ts p r with
    | some ms => some (cs ++ ms)
    | none => none

/-- Leftmost match of a pattern in a character list (JS `text.match(re)`
without the `g` flag). -/
def regexSearch (toks : List RTok) : Option Char → List Char → Option (List Char)
  | prev, s =>
    match matchToks toks prev s with
    | some cs => some cs
    | none =>
      match s with
      | [] => none
      | c :: rest => regexSearch toks (some c) rest

def jsMatch (toks : List RTok) (text : String) : Option (List Char) :=
  regexSearch toks none text.toList

/-- `/\b\d{5}-?\d{7}-?\d{1}\b/` -/
def cnicPattern1 : List RTok :=
  [.wb, .digits 5, .optHyphen, .digits 7, .optHyphen, .digits 1, .wb]

/-- `/\b\d{5}\s*-?\s*\d{7}\s*-?\s*\d{1}\b/` -/
def cnicPattern2 : List RTok :=
  [.wb, .digits 5, .spaces, .optHyphen, .spaces, .digits 7, .spaces, .optHyphen,
   .spaces, .digits 1, .wb]

/-- `/\b\d{13}\b/` -/
def cnicPattern3 : List RTok := [.wb, .digits 13, .wb]

/-- `match[0].replace(/\D/g, '')` followed by the 13-digit check and the
`XXXXX-XXXXXXX-X` formatting inside `extractCNIC`. -/
def cnicFromMatch (m : List Char) : Option String :=
  let digits := m.filter Char.isDigit
  if digits.length == 13 then
    some (String.mk (digits.take 5) ++ "-" ++ String.mk ((digits.drop 5).take 7)
      ++ "-" ++ String.mk (digits.drop 12))
  else none

/-- The `for (const pattern of patterns)` loop of `extractCNIC`: a pattern
that matches but does not yield 13 digits falls through to the next
pattern. -/
def extractCNICLoop : List (List RTok) → String → Option String
  | [], _ => none
  | p :: ps, text =>
    match jsMatch p text with
    | some m =>
      (match cnicFromMatch m with
       | some s => some s
       | none => extractCNICLoop ps text)
    | none => extractCNICLoop ps text

/-- `extractCNIC` from `src/services/ocrService.js`. -/
def extractCNIC (text : String) : Option String :=
  extractCNICLoop [cnicPattern1, cnicPattern2, cnicPattern3] text

/-- `/\b\d{7}-?\d{1}\b/` -/
def ntnPattern : List RTok := [.wb, .digits 7, .optHyphen, .digits 1, .wb]

/-- `extractNTN` from `src/services/ocrService.js`: the match with all
hyphen characters removed (the `replace` call on `match[0]`). -/
def extractNTN (text : String) : Option String :=
  match jsMatch ntnPattern text with
  | some m => some (String.mk (m.filter (fun c => c ≠ '-')))
  | none => none

/-! ## `extractTextFromUrl` (src/services/ocrService.js)

The primary backend (OCR.space) and the fallback backend (Tesseract,
including its worker initialization) are modelled as `Except` values: `.ok
text` for a run that returns text, `.error msg` for a run that throws.  The
function itself returns `Except`, so "never raises" is the statement that
the result is always `.ok`. -/

def extractTextFromUrl (primary fallbackOcr : Except String String)
    (url : String) : Except String String :=
  if url = "" then .ok ""
  else
    match primary with
    | .ok t => .ok t.trim
    | .error _ =>
      match fallbackOcr with
      | .ok t => .ok t.trim
      | .error _ => .ok ""

/-! ## Data model

Lists model the Prisma tables.  `OtpRec.codeHash` holds the plaintext code
under the identity model of bcrypt (see the header).  `User` carries the
columns the pipeline reads or writes. -/

structure RegDoc where
  docType : String
  fileUrl : String
  fileName : String
deriving DecidableEq

/-- The `registrationData` payload staged in the OTP record's `metadata`
by `register` (auth controller, step 7). -/
structure RegData where
  name : Option String
  businessName : Option String
  companyName : Option String
  email : String
  password : String
  role : String
  address : Option String
  contactNo : Option String
  profileImage : Option String
  documents : List RegDoc
  cnic : Option String
deriving DecidableEq

/-- A row of the `otp` table. -/
structure OtpRec where
  id : Nat
  email : Option String
  userId : Option Nat
  purpose : String
  codeHash : String
  used : Bool
  expiresAt : Nat
  createdAt : Nat
  metadata : Option RegData
deriving DecidableEq

/-- A row of the `user` table. -/
structure User where
  id : Nat
  name : Option String
  businessName : Option String
  companyName : Option String
  email : String
  password : String
  role : String
  address : Option String
  contactNo : Option String
  profileImage : Option String
  emailVerified : Bool
  verificationStatus : String
  kycStage : String
  rejectionReason : Option String
  requestedRole : Option String
  cnic : Option String
  documents : List RegDoc
deriving DecidableEq

/-- A row of the `ocrData` table (`extractedData` flattened into the two
possible fields). -/
structure OcrRow where
  userId : Nat
  docType : String
  ocrText : String
  fileUrl : String
  cnic : Option String
  ntn : Option String
  isMatch : Bool
deriving DecidableEq

/-- The persistent store: `user`, `otp` and `ocrData` tables plus the
`activityLog` actions, with an id counter for created users. -/
structure DB where
  users : List User
  otps : List OtpRec
  ocrData : List OcrRow
  logs : List String
  nextUserId : Nat
deriving DecidableEq

/-- An HTTP response as produced by `sendSuccess` / `sendError`. -/
inductive Resp where
  | ok (msg : String)
  | err (msg : String) (status : Nat)
deriving DecidableEq

/-! ## One-Time-Code Service (src/unnamed/part_007, second variant) -/

/-- `bcrypt.compare(code, hash)` under the identity model of bcrypt. -/
def bcryptCompare (code hash : String) : Bool := code == hash

/-- The `where` clause of the `findFirst` in `verifyOtp`, email branch:
`{ email, purpose, used: false }`. -/
def otpMatches (em purpose : String) (r : OtpRec) : Bool :=
  r.email == some em && r.purpose == purpose && !r.used

/-- The fold step realising `orderBy: { createdAt: 'desc' }` + `findFirst`:
keep the record with the greatest `createdAt`, first occurrence winning
ties. -/
def pickNewer (acc : Option OtpRec) (r : OtpRec) : Option OtpRec :=
  match acc with
  | none => some r
  | some b => if r.createdAt > b.createdAt then some r else some b

/-- `prisma.otp.findFirst({ where: { email, purpose, used: false },
orderBy: { createdAt: 'desc' } })`. -/
def latestUnused (otps : List OtpRec) (em purpose : String) : Option OtpRec :=
  (otps.filter (otpMatches em purpose)).foldl pickNewer none

/-- `prisma.otp.update({ where: { id }, data: { used: true } })`. -/
def markUsed (otps : List OtpRec) (id : Nat) : List OtpRec :=
  otps.map (fun r => if r.id == id then { r with used := true } else r)

/-- `verifyOtp` (email branch) as a state transition on the `otp` table:
returns the matched record (`null` becomes `none`) and the updated table. -/
def verifyOtp (otps : List OtpRec) (em code purpose : String) (now : Nat) :
    Option OtpRec × List OtpRec :=
  match latestUnused otps em purpose with
  | none => (none, otps)
  | some r =>
    if now > r.expiresAt then (none, otps)
    else if bcryptCompare code r.codeHash then (some r, markUsed otps r.id)
    else (none, otps)

/-! ## `verifyOtpController` (auth controller, src/unnamed/part_004) -/

/-- `prisma.user.findUnique({ where: { email } })`. -/
def findUserByEmail (users : List User) (em : String) : Option User :=
  users.find? (fun u => u.email == em)

/-- `prisma.user.findUnique({ where: { id } })`. -/
def findUserById (users : List User) (uid : Nat) : Option User :=
  users.find? (fun u => u.id == uid)

/-- `prisma.user.update({ where: { id } , data })` modelled as mapping the
update over the table. -/
def updateUser (users : List User) (uid : Nat) (f : User → User) : List User :=
  users.map (fun u => if u.id == uid then f u else u)

/-- The branch test `if (otpRecord.metadata && otpRecord.metadata.email)`:
yields the staged payload when the record carries metadata with a truthy
email. -/
def stagedPayload (r : OtpRec) : Option RegData :=
  match r.metadata with
  | some reg => if reg.email = "" then none else some reg
  | none => none

/-- The `prisma.user.create` call of the new-registration branch: status
and stage are hard-coded to `VERIFIED` ("Always VERIFIED after OTP"). -/
def userFromReg (uid : Nat) (reg : RegData) : User :=
  { id := uid
    name := reg.name
    businessName := reg.businessName
    companyName := reg.companyName
    email := reg.email
    password := reg.password
    role := reg.role
    address := reg.address
    contactNo := reg.contactNo
    profileImage := reg.profileImage
    emailVerified := true
    verificationStatus := VerificationStatus.VERIFIED
    kycStage := KycStage.VERIFIED
    rejectionReason := none
    requestedRole := none
    cnic := reg.cnic
    documents := reg.documents }

/-- The post-creation OCR loop: for each `CNIC`/`NTN` document, extract the
text of its URL and create an `ocrData` row (`isMatch` stays `false` in the
source). -/
def ocrRowsFor (ocr : String → String) (uid : Nat) (docs : List RegDoc) :
    List OcrRow :=
  docs.filterMap (fun d =>
    if d.docType == "CNIC" then
      some { userId := uid, docType := d.docType, ocrText := ocr d.fileUrl,
             fileUrl := d.fileUrl, cnic := extractCNIC (ocr d.fileUrl),
             ntn := none, isMatch := false }
    else if d.docType == "NTN" then
      some { userId := uid, docType := d.docType, ocrText := ocr d.fileUrl,
             fileUrl := d.fileUrl, cnic := none,
             ntn := extractNTN (ocr d.fileUrl), isMatch := false }
    else none)

/-- The existing-user branch: set `emailVerified`, auto-approve warehouse,
company and individual roles, run the OCR loop over the user's stored
documents, log `EMAIL_VERIFIED`. -/
def verifyExistingUser (ocr : String → String) (db : DB) (em : String) :
    Resp × DB :=
  match findUserByEmail db.users em with
  | none => (Resp.err "User not found" 404, db)
  | some user =>
    let autoApprove :=
      user.role == UserRole.WAREHOUSE || user.role == UserRole.COMPANY ||
        user.role == UserRole.INDIVIDUAL
    let upd : User → User := fun u =>
      if autoApprove then
        { u with emailVerified := true,
                 verificationStatus := VerificationStatus.VERIFIED,
                 kycStage := KycStage.VERIFIED }
      else { u with emailVerified := true }
    (Resp.ok "Email verified successfully. You can now login.",
     { db with users := updateUser db.users user.id upd,
               ocrData := db.ocrData ++ ocrRowsFor ocr user.id user.documents,
               logs := db.logs ++ ["EMAIL_VERIFIED"] })

/-- `verifyOtpController`: verify the OTP, then either materialize the
staged registration (new-registration branch) or re-verify an existing
user.  `ocr` models `extractTextFromUrl` on the stored document URLs. -/
def verifyOtpController (ocr : String → String) (db : DB) (em otp : String)
    (now : Nat) : Resp × DB :=
  match verifyOtp db.otps em otp "email_verification" now with
  | (none, otps') => (Resp.err "Invalid or expired OTP" 400, { db with otps := otps' })
  | (some r, otps') =>
    let db' := { db with otps := otps' }
    match stagedPayload r with
    | some reg =>
      match findUserByEmail db'.users reg.email with
      | some _ => (Resp.err "User already exists" 400, db')
      | none =>
        let u := userFromReg db'.nextUserId reg
        (Resp.ok "Email verified successfully. You can now login.",
         { db' with users := db'.users ++ [u],
                    ocrData := db'.ocrData ++ ocrRowsFor ocr u.id reg.documents,
                    logs := db'.logs ++ ["EMAIL_VERIFIED_AND_REGISTERED"],
                    nextUserId := db'.nextUserId + 1 })
    | none => verifyExistingUser ocr db' em

/-! ## KYC controller (src/unnamed/part_004, last document) -/

/-- `validateCnicFormat` from the KYC controller: strip hyphens, require
exactly 13 characters, all digits (`!cnic` short-circuits on the empty
string). -/
def validateCnicFormat (cnic : String) : Bool :=
  if cnic = "" then false
  else
    let digits := cnic.toList.filter (fun c => c ≠ '-')
    digits.length == 13 && digits.all Char.isDigit

/-- `validateNtnFormat`: strip hyphens, require exactly 8 digits. -/
def validateNtnFormat (ntn : String) : Bool :=
  if ntn = "" then false
  else
    let digits := ntn.toList.filter (fun c => c ≠ '-')
    digits.length == 8 && digits.all Char.isDigit

/-- `isCnicUnique`: `!(await prisma.user.findFirst({ where: { cnic } }))`.
Note it does not exclude the requesting user. -/
def isCnicUnique (users : List User) (cnic : String) : Bool :=
  (users.find? (fun u => u.cnic == some cnic)).isNone

/-- The uploaded files of a `registerKyc` request, each represented by the
OCR text of its uploaded URL (`none` = file absent). -/
structure KycReq where
  frontText : Option String
  backText : Option String
  ntnText : Option String
deriving DecidableEq

/-- The decision triple `(verificationStatus, kycStage, rejectionReason)`
computed by the `registerKyc` handler once both CNIC files are present. -/
def kycDecision (users : List User) (role : String) (rq : KycReq)
    (cnic : Option String) : String × String × Option String :=
  match cnic with
  | none =>
    (VerificationStatus.REJECTED, KycStage.DOCUMENTS_UPLOADED,
     some "OCR failed to extract valid CNIC from uploaded documents. Please ensure images are clear and readable.")
  | some c =>
    if !validateCnicFormat c then
      (VerificationStatus.REJECTED, KycStage.DOCUMENTS_UPLOADED,
       some "Extracted CNIC format is invalid. Please upload clear CNIC images.")
    else if !isCnicUnique users c then
      (VerificationStatus.REJECTED, KycStage.DOCUMENTS_UPLOADED,
       some "This CNIC is already registered with another business account.")
    else if role == UserRole.COMPANY then
      match rq.ntnText with
      | some t =>
        (match extractNTN t with
         | some ntn =>
           if validateNtnFormat ntn then
             (VerificationStatus.VERIFIED, KycStage.VERIFIED, none)
           else
             (VerificationStatus.REJECTED, KycStage.DOCUMENTS_UPLOADED,
              some "OCR failed to extract valid NTN from certificate. Please upload a clear NTN document.")
         | none =>
           (VerificationStatus.REJECTED, KycStage.DOCUMENTS_UPLOADED,
            some "OCR failed to extract valid NTN from certificate. Please upload a clear NTN document."))
      | none =>
        (VerificationStatus.REJECTED, KycStage.DOCUMENTS_UPLOADED,
         some "NTN certificate is required for company registration.")
    else (VerificationStatus.VERIFIED, KycStage.VERIFIED, none)

/-- The `registerKyc` handler (the async function after the multer stage):
reject individuals, require both CNIC sides, extract the CNIC
(front before back), decide, persist the decision on the user, and answer
accordingly. -/
def registerKyc (db : DB) (uid : Nat) (rq : KycReq) : Resp × DB :=
  match findUserById db.users uid with
  | none => (Resp.err "Failed to process KYC" 500, db)
  | some user =>
    if user.role == UserRole.INDIVIDUAL then
      (Resp.err "Individuals do not require KYC documents" 400, db)
    else if rq.frontText.isNone || rq.backText.isNone then
      (Resp.err "Both front and back CNIC images are required" 400, db)
    else
      let cnic := extractCNIC (rq.frontText.getD "") <|> extractCNIC (rq.backText.getD "")
      let (st, stage, reason) := kycDecision db.users user.role rq cnic
      let db' := { db with users := updateUser db.users uid (fun u =>
        { u with cnic := cnic, verificationStatus := st, kycStage := stage,
                 rejectionReason := reason }) }
      if st == VerificationStatus.VERIFIED then
        (Resp.ok "KYC approved! Your documents have been verified successfully.", db')
      else
        (Resp.err (reason.getD "") 400, db')

/-! ## Role-upgrade workflow (profile controller, src/unnamed/part_004) -/

/-- `isValidTransition` from the profile controller. -/
def isValidTransition (currentRole requestedRole : String) : Bool :=
  if currentRole == UserRole.INDIVIDUAL &&
      (requestedRole == UserRole.WAREHOUSE || requestedRole == UserRole.COMPANY) then
    true
  else if currentRole == UserRole.WAREHOUSE && requestedRole == UserRole.COMPANY then
    true
  else false

/-- A `requestRoleUpgrade` request body plus its uploaded files, each file
represented by the OCR text of its uploaded URL (`none` = absent); the
registration certificate and utility bill are never OCRed, so presence
flags suffice for them. -/
structure UpgradeReq where
  requestedRole : String
  businessName : Option String
  companyName : Option String
  address : Option String
  cnicFrontText : Option String
  cnicBackText : Option String
  ntnText : Option String
  hasRegistration : Bool
  hasUtility : Bool
deriving DecidableEq

/-- The transaction at step 4 of `requestRoleUpgrade`: auto-approve, switch
the role, record the extracted CNIC when present (`cnic: ocrCnic ||
undefined` leaves the field unchanged when extraction did not run). -/
def applyUpgrade (user : User) (rq : UpgradeReq) (ocrCnic : Option String) : User :=
  { user with
      role := rq.requestedRole
      requestedRole := none
      verificationStatus := VerificationStatus.VERIFIED
      kycStage := KycStage.VERIFIED
      businessName := if jsTruthy rq.businessName then rq.businessName else user.businessName
      companyName := if jsTruthy rq.companyName then rq.companyName else user.companyName
      address := rq.address
      cnic := if ocrCnic.isSome then ocrCnic else user.cnic }

/-- The store-level unique index `User_cnic_key` on `user.cnic`
(prisma migration `20251130105712`, also witnessed by `register` calling
`findUnique` on `cnic`): a write that would make the requesting user's row
hold a CNIC already held by a *different* row violates the index (Prisma
error P2002).  A same-row rewrite of the value the row already holds does
not. -/
def cnicConflict (users : List User) (uid : Nat) (cnic : Option String) : Bool :=
  match cnic with
  | none => false
  | some c => (users.find? (fun u => u.cnic == some c && u.id != uid)).isSome

/-- `requestRoleUpgrade`: transition check, pending check, per-role
document validation with synchronous OCR, then the auto-approve
`$transaction`.  The transaction's `tx.user.update` writes
`cnic: ocrCnic || undefined`; when that write violates `User_cnic_key`
the thrown P2002 rolls the whole transaction back and the controller's
catch answers the generic "Failed to process role upgrade request"
(`sendError` default status 500).  Document and `ocrData` bookkeeping of
the successful transaction is elided (only the user update and the audit
action matter to the stated claims). -/
def requestRoleUpgrade (db : DB) (uid : Nat) (rq : UpgradeReq) : Resp × DB :=
  match findUserById db.users uid with
  | none => (Resp.err "Failed to process role upgrade request" 500, db)
  | some user =>
    if !isValidTransition user.role rq.requestedRole then
      (Resp.err ("Invalid role transition from " ++ user.role ++ " to "
        ++ rq.requestedRole) 400, db)
    else if user.verificationStatus == VerificationStatus.PENDING
        && user.requestedRole.isSome then
      (Resp.err "You already have a pending upgrade request" 400, db)
    else if !jsTruthy rq.address then
      (Resp.err "Address is required for upgrade" 400, db)
    else if rq.requestedRole == UserRole.WAREHOUSE && !jsTruthy rq.businessName then
      (Resp.err "Business Name is required" 400, db)
    else if rq.requestedRole == UserRole.WAREHOUSE
        && (rq.cnicFrontText.isNone || rq.cnicBackText.isNone) then
      (Resp.err "CNIC Front and Back are required" 400, db)
    else
      let ocrCnic :=
        if rq.requestedRole == UserRole.WAREHOUSE then
          extractCNIC (rq.cnicFrontText.getD "") <|> extractCNIC (rq.cnicBackText.getD "")
        else none
      if rq.requestedRole == UserRole.WAREHOUSE && ocrCnic.isNone then
        (Resp.err "Could not verify CNIC from uploaded images. Please upload clear images." 400, db)
      else if rq.requestedRole == UserRole.COMPANY && !jsTruthy rq.companyName then
        (Resp.err "Company Name is required" 400, db)
      else if rq.requestedRole == UserRole.COMPANY
          && (rq.ntnText.isNone || !rq.hasRegistration) then
        (Resp.err "NTN and Registration Certificate are required" 400, db)
      else
        let ocrNtn :=
          if rq.requestedRole == UserRole.COMPANY then extractNTN (rq.ntnText.getD "")
          else none
        if rq.requestedRole == UserRole.COMPANY && ocrNtn.isNone then
          (Resp.err "Could not verify NTN from uploaded document." 400, db)
        else if !rq.hasUtility then
          (Resp.err "Utility Bill is required" 400, db)
        else if cnicConflict db.users uid ocrCnic then
          (Resp.err "Failed to process role upgrade request" 500, db)
        else
          (Resp.ok "Role upgrade approved successfully. Your account has been upgraded.",
           { db with users := updateUser db.users uid (fun u => applyUpgrade u rq ocrCnic),
                     logs := db.logs ++ ["ROLE_UPGRADE_AUTO_APPROVED"] })

/-! ## Theorems -/

/-- Claim C8, counterexample: the claim quantifies over any text containing
one of the three sample tokens, but `extractCNIC` returns the leftmost
pattern match, so a text that contains a different CNIC before
`"12345-1234567-1"` extracts the earlier number, not the canonical string
the claim demands. -/
theorem extractCNIC_containing_text_counterexample :
    extractCNIC "00000-0000000-0 12345-1234567-1" = some "00000-0000000-0" ∧
    extractCNIC "00000-0000000-0 12345-1234567-1" ≠ some "12345-1234567-1" := by
  refine ⟨by decide, by decide⟩

/-- Claim C8 as amended: applied to the three sample texts themselves —
hyphenated, bare 13 digits, space separated — `extractCNIC` returns the
identical canonical string `"12345-1234567-1"` in all three cases. -/
theorem extractCNIC_canonical :
    extractCNIC "12345-1234567-1" = some "12345-1234567-1" ∧
    extractCNIC "1234512345671" = some "12345-1234567-1" ∧
    extractCNIC "12345 1234567 1" = some "12345-1234567-1" := by
  decide

/-- Claim C9: `extractTextFromUrl` never raises: the result is always
`.ok`; when the primary backend fails the fallback's text is returned
(trimmed); when both fail the empty string is returned; an empty URL also
yields the empty string. -/
theorem extractTextFromUrl_never_raises :
    (∀ p f u, ∃ s, extractTextFromUrl p f u = Except.ok s) ∧
    (∀ e t u, extractTextFromUrl (Except.error e) (Except.ok t) u =
      Except.ok (if u = "" then "" else t.trim)) ∧
    (∀ e₁ e₂ u, extractTextFromUrl (Except.error e₁) (Except.error e₂) u =
      Except.ok "") ∧
    (∀ p f, extractTextFromUrl p f "" = Except.ok "") := by
  refine ⟨?_, ?_, ?_, ?_⟩
  · intro p f u
    unfold extractTextFromUrl
    split
    · exact ⟨"", rfl⟩
    · cases p with
      | ok t => exact ⟨t.trim, rfl⟩
      | error _ =>
        cases f with
        | ok t => exact ⟨t.trim, rfl⟩
        | error _ => exact ⟨"", rfl⟩
  · intro e t u
    unfold extractTextFromUrl
    split <;> simp_all
  · intro e₁ e₂ u
    unfold extractTextFromUrl
    split <;> rfl
  · intro p f
    unfold extractTextFromUrl
    rfl

/-! ### Lemmas about the most-recent-unused lookup -/

lemma pickNewer_self (acc : Option OtpRec) (r : OtpRec)
    (hacc : acc = none ∨ ∃ b, acc = some b ∧ (b = r ∨ b.createdAt < r.createdAt)) :
    pickNewer acc r = some r := by
  rcases hacc with h | ⟨b, hb, hbr⟩
  · subst h; rfl
  · subst hb
    simp only [pickNewer]
    rcases hbr with h | h
    · subst h; simp
    · rw [if_pos h]

lemma pickNewer_inv (acc : Option OtpRec) (x r : OtpRec)
    (hx : x = r ∨ x.createdAt < r.createdAt)
    (hacc : acc = none ∨ ∃ b, acc = some b ∧ (b = r ∨ b.createdAt < r.createdAt)) :
    ∃ b, pickNewer acc x = some b ∧ (b = r ∨ b.createdAt < r.createdAt) := by
  rcases hacc with h | ⟨b, hb, hbr⟩
  · subst h; exact ⟨x, rfl, hx⟩
  · subst hb
    simp only [pickNewer]
    by_cases hlt : x.createdAt > b.createdAt
    · rw [if_pos hlt]; exact ⟨x, rfl, hx⟩
    · rw [if_neg hlt]; exact ⟨b, rfl, hbr⟩

lemma pickNewer_keep (r x : OtpRec) (hx : x = r ∨ x.createdAt < r.createdAt) :
    pickNewer (some r) x = some r := by
  simp only [pickNewer]
  rcases hx with h | h
  · subst h; simp
  · rw [if_neg (by omega)]

lemma foldl_pickNewer_stays (l : List OtpRec) (r : OtpRec)
    (hall : ∀ x ∈ l, x = r ∨ x.createdAt < r.createdAt) :
    l.foldl pickNewer (some r) = some r := by
  induction l with
  | nil => rfl
  | cons x xs ih =>
    rw [List.foldl_cons, pickNewer_keep r x (hall x (List.mem_cons_self _ _))]
    exact ih (fun y hy => hall y (List.mem_cons_of_mem _ hy))

lemma foldl_pickNewer_max (l : List OtpRec) (r : OtpRec) (acc : Option OtpRec)
    (hmem : r ∈ l) (hall : ∀ x ∈ l, x = r ∨ x.createdAt < r.createdAt)
    (hacc : acc = none ∨ ∃ b, acc = some b ∧ (b = r ∨ b.createdAt < r.createdAt)) :
    l.foldl pickNewer acc = some r := by
  induction l generalizing acc with
  | nil => cases hmem
  | cons x xs ih =>
    rw [List.foldl_cons]
    rcases List.mem_cons.mp hmem with hx | hx
    · rw [← hx, pickNewer_self acc r hacc]
      exact foldl_pickNewer_stays xs r
        (fun y hy => hall y (List.mem_cons_of_mem _ hy))
    · exact ih _ hx (fun y hy => hall y (List.mem_cons_of_mem _ hy))
        (Or.inr (pickNewer_inv acc x r (hall x (List.mem_cons_self _ _)) hacc))

/-- If `r` is a matching record and strictly newest among matching records,
the `findFirst` lookup returns `r`. -/
lemma latestUnused_eq_max (otps : List OtpRec) (em p : String) (r : OtpRec)
    (hmem : r ∈ otps) (hmatch : otpMatches em p r = true)
    (hmax : ∀ x ∈ otps, otpMatches em p x = true →
      x = r ∨ x.createdAt < r.createdAt) :
    latestUnused otps em p = some r := by
  unfold latestUnused
  apply foldl_pickNewer_max
  · exact List.mem_filter.mpr ⟨hmem, hmatch⟩
  · intro x hx
    have hx' := List.mem_filter.mp hx
    exact hmax x hx'.1 hx'.2
  · exact Or.inl rfl

/-- Claim C10: a failed `verifyOtp` call leaves the OTP store unchanged —
when no record matches, the matched record is expired, or the submitted
code's hash does not match, no record is modified (in particular the
matched record keeps `used = false`), so only a successful verification
consumes a code. -/
theorem verifyOtp_failed_no_write (otps : List OtpRec) (em code purpose : String)
    (now : Nat) (h : (verifyOtp otps em code purpose now).1 = none) :
    (verifyOtp otps em code purpose now).2 = otps := by
  unfold verifyOtp at h ⊢
  cases hl : latestUnused otps em purpose with
  | none => rfl
  | some r =>
    by_cases hexp : now > r.expiresAt
    · simp [hexp]
    · by_cases hc : bcryptCompare code r.codeHash = true
      · rw [hl] at h
        simp [hexp, hc] at h
      · simp [hexp, hc]

/-- Concrete instance of C10: a wrong guess against a live code fails and
leaves the table untouched. -/
def otpStoreC10 : List OtpRec :=
  [{ id := 1, email := some "a@x.com", userId := none,
     purpose := "email_verification", codeHash := "123456", used := false,
     expiresAt := 100, createdAt := 1, metadata := none }]

/-- Witness for C10: the wrong code `"999999"` fails at time 5 and the
store is returned unchanged. -/
theorem verifyOtp_failed_no_write_witness :
    (verifyOtp otpStoreC10 "a@x.com" "999999" "email_verification" 5).1 = none ∧
    (verifyOtp otpStoreC10 "a@x.com" "999999" "email_verification" 5).2 = otpStoreC10 :=
  ⟨by decide, verifyOtp_failed_no_write otpStoreC10 "a@x.com" "999999"
    "email_verification" 5 (by decide)⟩

/-- The two-record store for the C7 counterexample: an older and a newer
unused code for the same email and purpose. -/
def rOldC7 : OtpRec :=
  { id := 1, email := some "w@x.com", userId := none,
    purpose := "email_verification", codeHash := "111111", used := false,
    expiresAt := 100, createdAt := 1, metadata := none }

def rNewC7 : OtpRec :=
  { id := 2, email := some "w@x.com", userId := none,
    purpose := "email_verification", codeHash := "222222", used := false,
    expiresAt := 100, createdAt := 2, metadata := none }

def otpStoreC7 : List OtpRec := [rOldC7, rNewC7]

/-- Claim C7, counterexample: the claim says an older unconsumed code can
never verify once a newer one is issued; but after the newer code is itself
consumed, the older record again becomes the most recent unused one, and
the older code verifies successfully. -/
theorem older_code_verifies_after_newer_consumed :
    (verifyOtp otpStoreC7 "w@x.com" "222222" "email_verification" 5).1 = some rNewC7 ∧
    (verifyOtp (verifyOtp otpStoreC7 "w@x.com" "222222" "email_verification" 5).2
      "w@x.com" "111111" "email_verification" 6).1 = some rOldC7 := by
  constructor
  · decide
  · decide

/-- Claim C7 as amended: while the newest unused record for the scope and
purpose is still present and unused, `verifyOtp` compares the submitted
code against that record alone, so any code other than the newest record's
— in particular any older code — fails and the store is unchanged. -/
theorem verifyOtp_only_latest_code (otps : List OtpRec) (em p oldCode : String)
    (now : Nat) (rNew : OtpRec)
    (hmem : rNew ∈ otps) (hmatch : otpMatches em p rNew = true)
    (hnewest : ∀ x ∈ otps, otpMatches em p x = true →
      x = rNew ∨ x.createdAt < rNew.createdAt)
    (hne : oldCode ≠ rNew.codeHash) :
    verifyOtp otps em oldCode p now = (none, otps) := by
  unfold verifyOtp
  rw [latestUnused_eq_max otps em p rNew hmem hmatch hnewest]
  have hc : ¬(bcryptCompare oldCode rNew.codeHash = true) := by
    simp only [bcryptCompare, beq_iff_eq]
    exact hne
  by_cases hexp : now > rNew.expiresAt
  · simp [hexp]
  · simp [hexp, hc]

/-- Witness for the amended C7: while `"222222"` (the newest record) is
unused, the older code `"111111"` cannot verify. -/
theorem verifyOtp_only_latest_code_witness :
    verifyOtp otpStoreC7 "w@x.com" "111111" "email_verification" 5 =
      (none, otpStoreC7) :=
  verifyOtp_only_latest_code otpStoreC7 "w@x.com" "email_verification" "111111"
    5 rNewC7 (by decide) (by decide) (by decide) (by decide)

/-! ### The confirmation step: success path and exhausted-code path -/

lemma filter_nil_of_none (p : OtpRec → Bool) (l : List OtpRec)
    (h : ∀ x ∈ l, p x = false) : l.filter p = [] := by
  induction l with
  | nil => rfl
  | cons x xs ih =>
    have hx := h x (List.mem_cons_self _ _)
    rw [List.filter_cons, hx]
    simp only [if_neg (by simp : ¬(false = true))]
    exact ih fun y hy => h y (List.mem_cons_of_mem _ hy)

/-- When the staged record `r` is the only matching unused record and the
submitted code and time are good, `verifyOtp` returns `r` and marks it
used. -/
lemma verifyOtp_success (otps : List OtpRec) (em code p : String) (now : Nat)
    (r : OtpRec) (hmem : r ∈ otps) (hmatch : otpMatches em p r = true)
    (huniq : ∀ x ∈ otps, otpMatches em p x = true → x = r)
    (hexp : ¬ now > r.expiresAt) (hcode : code = r.codeHash) :
    verifyOtp otps em code p now = (some r, markUsed otps r.id) := by
  unfold verifyOtp
  rw [latestUnused_eq_max otps em p r hmem hmatch
    (fun x hx hm => Or.inl (huniq x hx hm))]
  have hc : bcryptCompare code r.codeHash = true := by
    simp [bcryptCompare, hcode]
  simp [hexp, hc]

/-- After the only matching record has been marked used, no unused record
matches any more. -/
lemma latestUnused_after_markUsed (otps : List OtpRec) (em p : String)
    (r : OtpRec) (huniq : ∀ x ∈ otps, otpMatches em p x = true → x = r) :
    latestUnused (markUsed otps r.id) em p = none := by
  unfold latestUnused
  rw [filter_nil_of_none]
  · rfl
  · intro x hx
    rcases List.mem_map.mp hx with ⟨y, hy, hfy⟩
    by_cases hid : (y.id == r.id) = true
    · rw [if_pos hid] at hfy
      rw [← hfy]
      simp [otpMatches]
    · rw [if_neg hid] at hfy
      rw [← hfy]
      by_cases hm : otpMatches em p y = true
      · exact absurd (by rw [huniq y hy hm]; simp) hid
      · exact Bool.not_eq_true _ ▸ (Bool.eq_false_iff.mpr hm)

/-- A call with no matching unused record answers "Invalid or expired OTP"
and changes nothing. -/
lemma verifyOtpController_nomatch (ocr : String → String) (db : DB)
    (em code : String) (now : Nat)
    (h : latestUnused db.otps em "email_verification" = none) :
    verifyOtpController ocr db em code now =
      (Resp.err "Invalid or expired OTP" 400, db) := by
  unfold verifyOtpController verifyOtp
  rw [h]

/-- The success path of the new-registration branch of
`verifyOtpController`, computed in full. -/
lemma confirm_success_eq (ocr : String → String) (db : DB) (em code : String)
    (now : Nat) (r : OtpRec) (reg : RegData)
    (hmem : r ∈ db.otps)
    (hmatch : otpMatches em "email_verification" r = true)
    (huniq : ∀ x ∈ db.otps, otpMatches em "email_verification" x = true → x = r)
    (hexp : ¬ now > r.expiresAt) (hcode : code = r.codeHash)
    (hmeta : r.metadata = some reg) (hem : reg.email ≠ "")
    (hfree : findUserByEmail db.users reg.email = none) :
    verifyOtpController ocr db em code now =
      (Resp.ok "Email verified successfully. You can now login.",
       { users := db.users ++ [userFromReg db.nextUserId reg],
         otps := markUsed db.otps r.id,
         ocrData := db.ocrData ++ ocrRowsFor ocr db.nextUserId reg.documents,
         logs := db.logs ++ ["EMAIL_VERIFIED_AND_REGISTERED"],
         nextUserId := db.nextUserId + 1 }) := by
  have hsp : stagedPayload r = some reg := by
    unfold stagedPayload
    rw [hmeta]
    simp [hem]
  unfold verifyOtpController
  rw [verifyOtp_success db.otps em code "email_verification" now r hmem hmatch
    huniq hexp hcode]
  simp only [hsp, hfree]
  rfl

/-- Claim C1: for a staged registration whose issued code is the unique
matching unused OTP record, the first confirm materializes exactly one
account row (the staged payload appended to the user table), and a second
confirm with the same email and code fails with the invalid-or-expired-code
error and changes nothing: the record was marked used on first success and
a used record is never matched again. -/
theorem confirm_twice_materializes_once (ocr : String → String) (db : DB)
    (em code : String) (now now' : Nat) (r : OtpRec) (reg : RegData)
    (hmem : r ∈ db.otps)
    (hmatch : otpMatches em "email_verification" r = true)
    (huniq : ∀ x ∈ db.otps, otpMatches em "email_verification" x = true → x = r)
    (hexp : ¬ now > r.expiresAt) (hcode : code = r.codeHash)
    (hmeta : r.metadata = some reg) (hem : reg.email ≠ "")
    (hfree : findUserByEmail db.users reg.email = none) :
    (verifyOtpController ocr db em code now).1 =
      Resp.ok "Email verified successfully. You can now login." ∧
    (verifyOtpController ocr db em code now).2.users =
      db.users ++ [userFromReg db.nextUserId reg] ∧
    verifyOtpController ocr (verifyOtpController ocr db em code now).2 em code now' =
      (Resp.err "Invalid or expired OTP" 400,
       (verifyOtpController ocr db em code now).2) := by
  have h1 := confirm_success_eq ocr db em code now r reg hmem hmatch huniq hexp
    hcode hmeta hem hfree
  refine ⟨by rw [h1], by rw [h1], ?_⟩
  rw [h1]
  exact verifyOtpController_nomatch ocr _ em code now'
    (latestUnused_after_markUsed db.otps em "email_verification" r huniq)

/-- Concrete staged registration for the C1 witness. -/
def regC1 : RegData :=
  { name := some "Alice", businessName := none, companyName := none,
    email := "alice@x.com", password := "hashed", role := "individual",
    address := none, contactNo := none, profileImage := none,
    documents := [], cnic := none }

def otpC1 : OtpRec :=
  { id := 7, email := some "alice@x.com", userId := none,
    purpose := "email_verification", codeHash := "123456", used := false,
    expiresAt := 100, createdAt := 3, metadata := some regC1 }

def dbC1 : DB :=
  { users := [], otps := [otpC1], ocrData := [], logs := [], nextUserId := 1 }

/-- Witness for C1: Alice's staged registration, confirmed at time 5 and
re-confirmed with the same code at time 50. -/
theorem confirm_twice_materializes_once_witness :
    (verifyOtpController (fun _ => "") dbC1 "alice@x.com" "123456" 5).1 =
      Resp.ok "Email verified successfully. You can now login." ∧
    (verifyOtpController (fun _ => "") dbC1 "alice@x.com" "123456" 5).2.users =
      dbC1.users ++ [userFromReg dbC1.nextUserId regC1] ∧
    verifyOtpController (fun _ => "")
        (verifyOtpController (fun _ => "") dbC1 "alice@x.com" "123456" 5).2
        "alice@x.com" "123456" 50 =
      (Resp.err "Invalid or expired OTP" 400,
       (verifyOtpController (fun _ => "") dbC1 "alice@x.com" "123456" 5).2) :=
  confirm_twice_materializes_once (fun _ => "") dbC1 "alice@x.com" "123456" 5 50
    otpC1 regC1 (by decide) (by decide) (by decide)
    (by decide) (by decide) (by decide) (by decide) (by decide)

/-- An existing warehouse account already bound to CNIC
`"12345-1234567-1"`, and a second warehouse registration staged with a
CNIC document whose OCR extracts the same number. -/
def userC2 : User :=
  { id := 1, name := none, businessName := some "W1", companyName := none,
    email := "w1@x.com", password := "h", role := "warehouse",
    address := some "a", contactNo := none, profileImage := none,
    emailVerified := true, verificationStatus := "VERIFIED",
    kycStage := "VERIFIED", rejectionReason := none, requestedRole := none,
    cnic := some "12345-1234567-1", documents := [] }

def regC2 : RegData :=
  { name := none, businessName := some "W2", companyName := none,
    email := "w2@x.com", password := "h2", role := "warehouse",
    address := some "b", contactNo := none, profileImage := some "img",
    documents := [{ docType := "CNIC", fileUrl := "url1", fileName := "cnic.jpg" }],
    cnic := none }

def otpC2 : OtpRec :=
  { id := 1, email := some "w2@x.com", userId := none,
    purpose := "email_verification", codeHash := "654321", used := false,
    expiresAt := 100, createdAt := 1, metadata := some regC2 }

def dbC2 : DB :=
  { users := [userC2], otps := [otpC2], ocrData := [], logs := [],
    nextUserId := 2 }

/-- OCR backend behaviour for C2: every document reads as the duplicate
CNIC. -/
def ocrC2 : String → String := fun _ => "12345-1234567-1"

/-- Claim C2, counterexample: the second warehouse's confirm extracts the
duplicate CNIC (the `ocrData` row proves extraction ran), yet the created
account is `VERIFIED` with no rejection reason — not `REJECTED` as the
claim demands: `verifyOtpController` never invokes any KYC decision. -/
theorem confirm_duplicate_cnic_not_rejected :
    (verifyOtpController ocrC2 dbC2 "w2@x.com" "654321" 5).1 =
      Resp.ok "Email verified successfully. You can now login." ∧
    (verifyOtpController ocrC2 dbC2 "w2@x.com" "654321" 5).2.users.map
        (fun u => (u.email, u.verificationStatus, u.rejectionReason)) =
      [("w1@x.com", "VERIFIED", none), ("w2@x.com", "VERIFIED", none)] ∧
    (verifyOtpController ocrC2 dbC2 "w2@x.com" "654321" 5).2.ocrData.map
        (fun row => row.cnic) = [some "12345-1234567-1"] ∧
    userC2.cnic = some "12345-1234567-1" ∧
    (VerificationStatus.VERIFIED : String) ≠ VerificationStatus.REJECTED := by
  refine ⟨by decide, by decide, by decide, by decide, by decide⟩

/-- Claim C2 as amended: for warehouse/company (indeed any) staged
registration, confirming the OTP runs Identity Extraction synchronously
(the `ocrData` rows are written in the same step) but invokes no KYC
decision: the account is created with `verificationStatus = VERIFIED`,
`kycStage = VERIFIED` and no rejection reason, regardless of what the OCR
extracts and of any other account holding the same CNIC. -/
theorem confirm_creates_verified_account (ocr : String → String) (db : DB)
    (em code : String) (now : Nat) (r : OtpRec) (reg : RegData)
    (hmem : r ∈ db.otps)
    (hmatch : otpMatches em "email_verification" r = true)
    (huniq : ∀ x ∈ db.otps, otpMatches em "email_verification" x = true → x = r)
    (hexp : ¬ now > r.expiresAt) (hcode : code = r.codeHash)
    (hmeta : r.metadata = some reg) (hem : reg.email ≠ "")
    (hfree : findUserByEmail db.users reg.email = none) :
    ∃ u, (verifyOtpController ocr db em code now).2.users = db.users ++ [u] ∧
      u.verificationStatus = VerificationStatus.VERIFIED ∧
      u.kycStage = KycStage.VERIFIED ∧
      u.rejectionReason = none ∧
      (verifyOtpController ocr db em code now).2.ocrData =
        db.ocrData ++ ocrRowsFor ocr u.id reg.documents := by
  have h1 := confirm_success_eq ocr db em code now r reg hmem hmatch huniq hexp
    hcode hmeta hem hfree
  refine ⟨userFromReg db.nextUserId reg, by rw [h1], rfl, rfl, rfl, ?_⟩
  rw [h1]
  rfl

/-- Witness for the amended C2: the duplicate-CNIC scenario of the
counterexample data still yields a `VERIFIED` account. -/
theorem confirm_creates_verified_account_witness :
    ∃ u, (verifyOtpController ocrC2 dbC2 "w2@x.com" "654321" 5).2.users =
        dbC2.users ++ [u] ∧
      u.verificationStatus = VerificationStatus.VERIFIED ∧
      u.kycStage = KycStage.VERIFIED ∧
      u.rejectionReason = none ∧
      (verifyOtpController ocrC2 dbC2 "w2@x.com" "654321" 5).2.ocrData =
        dbC2.ocrData ++ ocrRowsFor ocrC2 u.id regC2.documents :=
  confirm_creates_verified_account ocrC2 dbC2 "w2@x.com" "654321" 5 otpC2 regC2
    (by decide) (by decide) (by decide)
    (by decide) (by decide) (by decide) (by decide) (by decide)

/-- Claim C5 as amended: for an individual account the KYC operation does
not evaluate at all — it short-circuits with the 400 validation error
"Individuals do not require KYC documents" and leaves the store unchanged
(individuals are auto-verified at OTP confirmation instead). -/
theorem registerKyc_individual_error (db : DB) (uid : Nat) (rq : KycReq)
    (user : User) (hfind : findUserById db.users uid = some user)
    (hrole : user.role = UserRole.INDIVIDUAL) :
    registerKyc db uid rq =
      (Resp.err "Individuals do not require KYC documents" 400, db) := by
  unfold registerKyc
  rw [hfind]
  simp [hrole]

/-- A pending individual account for the C5 instance. -/
def userC5 : User :=
  { id := 1, name := some "Ivy", businessName := none, companyName := none,
    email := "ivy@x.com", password := "h", role := "individual",
    address := none, contactNo := none, profileImage := none,
    emailVerified := true, verificationStatus := "PENDING",
    kycStage := "REGISTERED", rejectionReason := none, requestedRole := none,
    cnic := none, documents := [] }

def dbC5 : DB :=
  { users := [userC5], otps := [], ocrData := [], logs := [], nextUserId := 2 }

def rqC5 : KycReq :=
  { frontText := some "12345-1234567-1", backText := some "back side",
    ntnText := none }

/-- Claim C5, counterexample: the individual's KYC submission is answered
with an error, and the account's status stays `PENDING` — the operation
does not short-circuit to `Verified`. -/
theorem registerKyc_individual_not_verified :
    (registerKyc dbC5 1 rqC5).1 =
      Resp.err "Individuals do not require KYC documents" 400 ∧
    (registerKyc dbC5 1 rqC5).2 = dbC5 ∧
    (findUserById (registerKyc dbC5 1 rqC5).2.users 1).map
      (fun u => u.verificationStatus) = some "PENDING" := by
  refine ⟨by decide, by decide, by decide⟩

/-- Witness for the amended C5. -/
theorem registerKyc_individual_error_witness :
    registerKyc dbC5 1 rqC5 =
      (Resp.err "Individuals do not require KYC documents" 400, dbC5) :=
  registerKyc_individual_error dbC5 1 rqC5 userC5 (by decide) (by decide)

/-- Claim C6: `isValidTransition` permits exactly the three transitions
individual→warehouse, individual→company and warehouse→company, and for
any other pair `requestRoleUpgrade` fails with the invalid-transition
error, leaving the store (in particular the account's role) unchanged. -/
theorem roleUpgrade_transition_table :
    (∀ c r : String, isValidTransition c r = true ↔
      ((c = UserRole.INDIVIDUAL ∧ r = UserRole.WAREHOUSE) ∨
       (c = UserRole.INDIVIDUAL ∧ r = UserRole.COMPANY) ∨
       (c = UserRole.WAREHOUSE ∧ r = UserRole.COMPANY))) ∧
    (∀ (db : DB) (uid : Nat) (rq : UpgradeReq) (user : User),
      findUserById db.users uid = some user →
      isValidTransition user.role rq.requestedRole = false →
      requestRoleUpgrade db uid rq =
        (Resp.err ("Invalid role transition from " ++ user.role ++ " to "
          ++ rq.requestedRole) 400, db)) := by
  constructor
  · intro c r
    simp only [isValidTransition, UserRole.INDIVIDUAL, UserRole.WAREHOUSE,
      UserRole.COMPANY]
    split_ifs with h1 h2 <;>
      simp_all [Bool.and_eq_true, Bool.or_eq_true, beq_iff_eq]
  · intro db uid rq user hfind hinv
    unfold requestRoleUpgrade
    rw [hfind]
    simp [hinv]

/-- A verified warehouse account asking for the forbidden downgrade to
individual. -/
def userC6 : User :=
  { id := 2, name := none, businessName := some "WH", companyName := none,
    email := "wh6@x.com", password := "h", role := "warehouse",
    address := some "a", contactNo := none, profileImage := none,
    emailVerified := true, verificationStatus := "VERIFIED",
    kycStage := "VERIFIED", rejectionReason := none, requestedRole := none,
    cnic := none, documents := [] }

def dbC6 : DB :=
  { users := [userC6], otps := [], ocrData := [], logs := [], nextUserId := 3 }

def rqC6 : UpgradeReq :=
  { requestedRole := "individual", businessName := none, companyName := none,
    address := some "a", cnicFrontText := none, cnicBackText := none,
    ntnText := none, hasRegistration := false, hasUtility := false }

/-- Witness for C6: the warehouse→individual downgrade is refused and the
store unchanged. -/
theorem roleUpgrade_transition_table_witness :
    requestRoleUpgrade dbC6 2 rqC6 =
      (Resp.err ("Invalid role transition from " ++ userC6.role ++ " to "
        ++ rqC6.requestedRole) 400, dbC6) :=
  roleUpgrade_transition_table.2 dbC6 2 rqC6 userC6 (by decide) (by decide)

/-- A warehouse account with no CNIC yet, submitting CNIC images whose OCR
reads `"12345-1234567-1"`, twice in a row. -/
def userC3 : User :=
  { id := 1, name := none, businessName := some "WH", companyName := none,
    email := "wh@x.com", password := "h", role := "warehouse",
    address := some "a", contactNo := none, profileImage := none,
    emailVerified := true, verificationStatus := "PENDING",
    kycStage := "REGISTERED", rejectionReason := none, requestedRole := none,
    cnic := none, documents := [] }

def dbC3 : DB :=
  { users := [userC3], otps := [], ocrData := [], logs := [], nextUserId := 2 }

def rqC3 : KycReq :=
  { frontText := some "12345-1234567-1", backText := some "no number here",
    ntnText := none }

/-- Claim C3 (code bug): `registerKyc` run twice with identical documents
and no intervening change is *not* idempotent — the first run verifies and
persists the CNIC on the account, and the second run's uniqueness check
(`isCnicUnique`, which does not exclude the requesting user) then finds
the requester's own row and rejects with the duplicate reason. -/
theorem registerKyc_not_idempotent :
    (registerKyc dbC3 1 rqC3).1 =
      Resp.ok "KYC approved! Your documents have been verified successfully." ∧
    (findUserById (registerKyc dbC3 1 rqC3).2.users 1).map
      (fun u => (u.verificationStatus, u.cnic)) =
      some ("VERIFIED", some "12345-1234567-1") ∧
    (registerKyc (registerKyc dbC3 1 rqC3).2 1 rqC3).1 =
      Resp.err "This CNIC is already registered with another business account." 400 ∧
    (findUserById (registerKyc (registerKyc dbC3 1 rqC3).2 1 rqC3).2.users 1).map
      (fun u => (u.verificationStatus, u.rejectionReason)) =
      some ("REJECTED",
        some "This CNIC is already registered with another business account.") := by
  refine ⟨by decide, by decide, by decide, by decide⟩

/-- The C4 instance: account 1 already holds CNIC `"12345-1234567-1"`;
account 2 (individual) requests a warehouse upgrade with CNIC images whose
OCR reads the same number. -/
def userC4a : User :=
  { id := 1, name := none, businessName := some "W1", companyName := none,
    email := "w1b@x.com", password := "h", role := "warehouse",
    address := some "a", contactNo := none, profileImage := none,
    emailVerified := true, verificationStatus := "VERIFIED",
    kycStage := "VERIFIED", rejectionReason := none, requestedRole := none,
    cnic := some "12345-1234567-1", documents := [] }

def userC4b : User :=
  { id := 2, name := some "Ian", businessName := none, companyName := none,
    email := "ian@x.com", password := "h", role := "individual",
    address := some "b", contactNo := none, profileImage := none,
    emailVerified := true, verificationStatus := "VERIFIED",
    kycStage := "VERIFIED", rejectionReason := none, requestedRole := none,
    cnic := none, documents := [] }

def dbC4 : DB :=
  { users := [userC4a, userC4b], otps := [], ocrData := [], logs := [],
    nextUserId := 3 }

def rqC4 : UpgradeReq :=
  { requestedRole := "warehouse", businessName := some "B2",
    companyName := none, address := some "addr",
    cnicFrontText := some "12345-1234567-1", cnicBackText := some "back",
    ntnText := none, hasRegistration := false, hasUtility := true }

/-- Claim C4, counterexample: account 2's upgrade document OCR-extracts
the CNIC already bound to account 1, yet no KYC step 3-7 evaluation runs:
the `User_cnic_key` violation inside the transaction yields the *generic*
"Failed to process role upgrade request" (500) — not the descriptive
duplicate rejection the uniqueness check of §4.4 produces — and nothing is
persisted: no rejection reason is recorded and the status is untouched
(the role is unchanged, but by rollback, not by a rejection decision). -/
theorem roleUpgrade_duplicate_cnic_counterexample :
    userC4a.cnic = some "12345-1234567-1" ∧
    (requestRoleUpgrade dbC4 2 rqC4).1 =
      Resp.err "Failed to process role upgrade request" 500 ∧
    (requestRoleUpgrade dbC4 2 rqC4).1 ≠
      Resp.err "This CNIC is already registered with another business account." 400 ∧
    (requestRoleUpgrade dbC4 2 rqC4).2 = dbC4 ∧
    (findUserById (requestRoleUpgrade dbC4 2 rqC4).2.users 2).map
      (fun u => (u.role, u.rejectionReason, u.verificationStatus)) =
      some ("individual", none, "VERIFIED") := by
  refine ⟨by decide, by decide, by decide, by decide, by decide⟩

/-- Claim C4 as amended: `requestRoleUpgrade` performs none of the KYC
step 3-7 format/uniqueness checks — after extraction succeeds it goes
straight to the auto-approve transaction.  For an upgrade whose documents
OCR-extract a CNIC already belonging to a different account, the
store-level unique index on `user.cnic` makes the transaction's user
update fail, so the request errors with the controller's generic
"Failed to process role upgrade request" (500) — no descriptive duplicate
reason, no persisted decision — and the account (in particular its role)
is left unchanged by the rollback. -/
theorem roleUpgrade_duplicate_cnic_generic_failure (db : DB) (uid : Nat)
    (rq : UpgradeReq) (user : User) (c : String)
    (hfind : findUserById db.users uid = some user)
    (htrans : isValidTransition user.role rq.requestedRole = true)
    (hrole : rq.requestedRole = UserRole.WAREHOUSE)
    (hpend : (user.verificationStatus == VerificationStatus.PENDING
      && user.requestedRole.isSome) = false)
    (haddr : jsTruthy rq.address = true)
    (hbn : jsTruthy rq.businessName = true)
    (hfront : rq.cnicFrontText.isNone = false)
    (hback : rq.cnicBackText.isNone = false)
    (hc : (extractCNIC (rq.cnicFrontText.getD "")
      <|> extractCNIC (rq.cnicBackText.getD "")) = some c)
    (hut : rq.hasUtility = true)
    (hconf : cnicConflict db.users uid (some c) = true) :
    requestRoleUpgrade db uid rq =
      (Resp.err "Failed to process role upgrade request" 500, db) := by
  unfold requestRoleUpgrade
  rw [hfind]
  have htrans' : isValidTransition user.role "warehouse" = true := by
    rw [hrole] at htrans
    simpa [UserRole.WAREHOUSE] using htrans
  simp [htrans', hpend, haddr, hbn, hfront, hback, hrole, hut, hc, hconf,
    UserRole.WAREHOUSE, UserRole.COMPANY]

/-- Witness for the amended C4: the duplicate-CNIC upgrade of the
counterexample scenario fails generically with the store unchanged. -/
theorem roleUpgrade_duplicate_cnic_generic_failure_witness :
    requestRoleUpgrade dbC4 2 rqC4 =
      (Resp.err "Failed to process role upgrade request" 500, dbC4) :=
  roleUpgrade_duplicate_cnic_generic_failure dbC4 2 rqC4 userC4b
    "12345-1234567-1" (by decide) (by decide) (by decide) (by decide)
    (by decide) (by decide) (by decide) (by decide) (by decide) (by decide)
    (by decide)

end RecyConnect
